import Mathlib

/-!
Shallow embedding of the Vulkava orchestration client (src/index.ts) and
proofs about its node-selection, voice-update handling and search logic.

The embedding translates the `Vulkava` class from `src/index.ts`:
JavaScript objects become Lean structures, in-place mutation becomes
explicit state passing, `Date.now()` becomes an explicit `now : Nat`
argument, and calls into collaborator objects whose source files are not
part of this snapshot (the `Node`, `Player` and catalog-source classes)
are recorded as observable effects or supplied through an environment
record.
-/

namespace Vulkava

/-- Health states of a remote node link.  Modelled from the spec: the
`NodeState` enum lives in `lib/Node.ts`, which is not part of this source
snapshot; the spec lists the states IDLE, CONNECTING, CONNECTED,
RECONNECTING, DISCONNECTED, and `src/index.ts` only ever compares against
`NodeState.CONNECTED`. -/
inductive NodeState
  | IDLE
  | CONNECTING
  | CONNECTED
  | RECONNECTING
  | DISCONNECTED
deriving DecidableEq

/-- Connection states of a player.  Modelled from the spec: the
`ConnectionState` enum lives in `lib/Player.ts`, which is not part of this
source snapshot; `src/index.ts` only ever assigns
`ConnectionState.DISCONNECTED`. -/
inductive ConnState
  | CONNECTING
  | CONNECTED
  | DISCONNECTED
deriving DecidableEq

/-- One lavalink node as seen by `src/index.ts`: its identifier, current
state, `totalPenalties` getter value and configured `options.region`.
The `Node` class itself is not in this snapshot; `src/index.ts` reads only
these members, so they are modelled as plain data. -/
structure NodeData where
  id : String
  state : NodeState
  totalPenalties : Int
  region : Option String
deriving DecidableEq

/-- The stored voice server event, `player.voiceState.event`, written by
`handleVoiceUpdate` as a spread of the VOICE_SERVER_UPDATE packet data
(`guild_id`, `endpoint`, `token`). -/
structure VoiceEvent where
  endpoint : String
  token : String
  guild_id : String
deriving DecidableEq

/-- The two signaling facts stored on a player: `voiceState.sessionId` and
`voiceState.event`. -/
structure VoiceState where
  sessionId : Option String
  event : Option VoiceEvent
deriving DecidableEq

/-- The slice of a `Player` object that `Vulkava.handleVoiceUpdate` reads
and writes: the voice channel id, the owning node (nullable), the
connection state and the stored voice facts.  The `Player` class lives in
`lib/Player.ts`, which is not part of this snapshot. -/
structure PlayerData where
  voiceChannelId : String
  node : Option NodeData
  state : ConnState
  voiceState : VoiceState
deriving DecidableEq

/-- Raw playlist metadata as returned by the node REST API. -/
structure PlaylistInfo where
  name : String
  duration : Int
  selectedTrack : Int
deriving DecidableEq

/-- A raw track object (`ITrack`) as returned by the node REST API, kept
opaque: `src/index.ts` only passes it to the `Track` constructor. -/
structure ITrack where
  tag : String
deriving DecidableEq

/-- A constructed `Track` value object.  The `Track` class is not in this
snapshot; `src/index.ts` only reads its `duration` member, so a track is
modelled by an identity tag plus its duration. -/
structure TrackData where
  tag : String
  duration : Int
deriving DecidableEq

/-- Raw result of the node `loadtracks` REST call. -/
structure LoadTracksResult where
  loadType : String
  playlistInfo : PlaylistInfo
  tracks : List ITrack
deriving DecidableEq

/-- One entry of the search cache: the cache holds objects of shape
`\x7b q, v \x7d` (see `Vulkava.search` and `lib/Cache.ts`). -/
structure CacheEntry where
  q : String
  v : LoadTracksResult
deriving DecidableEq

/-- The mutable state of a `Vulkava` instance that the embedded methods
touch: `clientId`, the `nodes` array, the `lastNodeSorting` timestamp, the
`players` map (association list keyed by guild id) and the search `cache`
array. -/
structure VState where
  clientId : String
  nodes : List NodeData
  lastNodeSorting : Nat
  players : List (String × PlayerData)
  cache : List CacheEntry
deriving DecidableEq

/-- JavaScript truthiness of an optional string: `undefined`, `null` and
the empty string are falsy. -/
def truthyS : Option String → Bool
  | none => false
  | some s => s != ""

/-- Character-list test that the second list starts the first. -/
def leadChars : List Char → List Char → Bool
  | [], _ => true
  | _ :: _, [] => false
  | a :: as, b :: bs => a == b && leadChars as bs

/-- ECMAScript `String#startsWith(lead)`, embedded over the character
lists of the strings so that concrete proofs can evaluate it. -/
def jsStartsWith (s lead : String) : Bool :=
  leadChars lead.data s.data

/-- The comparator passed to `this.nodes.sort((a, b) => a.totalPenalties -
b.totalPenalties)`: ascending order of penalties. -/
def nodeLE (a b : NodeData) : Prop :=
  a.totalPenalties ≤ b.totalPenalties

instance : DecidableRel nodeLE := fun a b =>
  inferInstanceAs (Decidable (a.totalPenalties ≤ b.totalPenalties))

instance : IsTotal NodeData nodeLE :=
  ⟨fun a b => Int.le_total a.totalPenalties b.totalPenalties⟩

instance : IsTrans NodeData nodeLE :=
  ⟨fun _ _ _ hab hbc => le_trans hab hbc⟩

/-- The in-place `Array.prototype.sort` call of `bestNode`.  ECMAScript
guarantees a stable sort, and any stable ascending sort by the same key
produces the same list, so it is embedded as insertion sort with the
penalty comparator. -/
def sortNodes (l : List NodeData) : List NodeData :=
  l.insertionSort nodeLE

/-- Possible outcomes of the `bestNode` getter. -/
inductive BNRes
  | ok (n : NodeData)
  /-- the getter throws `new Error('No connected nodes!')` -/
  | err
  /-- the getter recurses forever (only possible while `Date.now()` is
  within 30 seconds of the epoch, see `bestNode`) -/
  | hang
  /-- `this.nodes[0].state` raises a TypeError because the array is empty -/
  | crash
deriving DecidableEq

/-- The rescan path of the `bestNode` getter: sort `this.nodes` in place
by penalties, take the first element, throw if it is missing or not
CONNECTED.  Note that the source never refreshes `this.lastNodeSorting`
here. -/
def bestNodeScan (s : VState) : BNRes × VState :=
  let sorted := sortNodes s.nodes
  let s' := { s with nodes := sorted }
  match sorted.head? with
  | none => (BNRes.err, s')
  | some n =>
    if n.state = NodeState.CONNECTED then (BNRes.ok n, s')
    else (BNRes.err, s')

/-- The `bestNode` getter of `src/index.ts`.  If `Date.now()` is inside
the window `lastNodeSorting + 30000`, return `this.nodes[0]` when it is
CONNECTED; otherwise reset `lastNodeSorting` to 0 and recurse.  The
recursion is unrolled: after the reset the window test becomes
`now < 30000`, and if that still holds the getter repeats the same fast
path forever (`hang`), else it falls through to the rescan path. -/
def bestNode (s : VState) (now : Nat) : BNRes × VState :=
  if now < s.lastNodeSorting + 30000 then
    match s.nodes.head? with
    | none => (BNRes.crash, s)
    | some n =>
      if n.state = NodeState.CONNECTED then (BNRes.ok n, s)
      else
        let s' := { s with lastNodeSorting := 0 }
        if now < 30000 then (BNRes.hang, s')
        else bestNodeScan s'
  else
    bestNodeScan s

/-- Lookup in the `players` map (`this.players.get(guildId)`). -/
def getPlayer (ps : List (String × PlayerData)) (g : String) : Option PlayerData :=
  (ps.find? (fun kv => kv.1 = g)).map (·.2)

/-- In JavaScript the handler mutates the `Player` object held in the
map; in the embedding this becomes replacing the (unique-keyed) entry for
the guild with the updated player. -/
def setPlayer : List (String × PlayerData) → String → PlayerData → List (String × PlayerData)
  | [], _, _ => []
  | kv :: rest, g, p => if kv.1 = g then (g, p) :: rest else kv :: setPlayer rest g p

/-- Observable calls that `handleVoiceUpdate` makes into the `Player`
object (whose class is not part of this snapshot). -/
inductive Effect
  /-- a call to `player.sendVoiceUpdate()`, recorded with the guild and
  the facts stored on the player at call time.  Modelled from the spec:
  `sendVoiceUpdate` emits the outbound payload containing the resolved
  session-id, endpoint and token to the currently assigned node. -/
  | sendVoiceUpdate (guildId : String) (sessionId : Option String) (event : Option VoiceEvent)
  /-- a call to `player.moveNode(target)` -/
  | moveNode (guildId : String) (target : NodeData)
deriving DecidableEq

/-- Modelled from the spec: `Player.moveNode` (the spec's `migrateTo`)
lives in `lib/Player.ts`, which is not part of this snapshot.  Per the
spec it reassigns the owning link and re-sends the full handshake payload
with the existing facts to the new link, so it is embedded as updating
`player.node` and recording the move plus the re-sent handshake as
effects. -/
def moveNodeCall (g : String) (p : PlayerData) (target : NodeData) :
    PlayerData × List Effect :=
  ({ p with node := some target },
   [Effect.moveNode g target,
    Effect.sendVoiceUpdate g p.voiceState.sessionId p.voiceState.event])

/-- One incoming Discord payload as read by `handleVoiceUpdate`.  The
source treats `payload.d` as an untyped record and only ever reads the
fields below, so a single flat record embeds both packet shapes. -/
structure Payload where
  op : Int
  t : String
  guild_id : Option String
  user_id : String
  session_id : String
  channel_id : Option String
  endpoint : Option String
  token : String
deriving DecidableEq

/-- The endpoint-region test of `handleVoiceUpdate`:
`['us', 'brazil', 'buenos-aires'].some(loc => endpoint.startsWith(loc))`. -/
def usaEndpoint (ep : String) : Bool :=
  ["us", "brazil", "buenos-aires"].any (fun loc => jsStartsWith ep loc)

/-- Tail of the VOICE_SERVER_UPDATE branch after the migration checks:
`if (player.voiceState.sessionId) player.sendVoiceUpdate();`. -/
def serverUpdateFinish (s : VState) (g : String) (pl : PlayerData) :
    VState × List Effect × Option String :=
  ({ s with players := setPlayer s.players g pl },
   if truthyS pl.voiceState.sessionId then
     [Effect.sendVoiceUpdate g pl.voiceState.sessionId pl.voiceState.event]
   else [],
   none)

/-- The `handleVoiceUpdate` method of `src/index.ts`.  Returns the new
state, the list of observable player calls made, and the message of a
thrown `Error` when the method throws. -/
def handleVoiceUpdate (s : VState) (p : Payload) :
    VState × List Effect × Option String :=
  if p.op ≠ 0 ∨ ¬ truthyS p.guild_id then (s, [], none)
  else
    let g := p.guild_id.getD ""
    match getPlayer s.players g with
    | none => (s, [], none)
    | some pl =>
      if p.t = "VOICE_STATE_UPDATE" then
        if p.user_id ≠ s.clientId then (s, [], none)
        else
          let pl1 := { pl with voiceState := { pl.voiceState with sessionId := some p.session_id } }
          let pl2 :=
            if truthyS p.channel_id then { pl1 with voiceChannelId := p.channel_id.getD "" }
            else pl1
          ({ s with players := setPlayer s.players g pl2 },
           if pl2.voiceState.event.isSome then
             [Effect.sendVoiceUpdate g pl2.voiceState.sessionId pl2.voiceState.event]
           else [],
           none)
      else if p.t = "VOICE_SERVER_UPDATE" then
        if ¬ truthyS p.endpoint then (s, [], none)
        else
          let ep := p.endpoint.getD ""
          let ev : VoiceEvent := { endpoint := ep, token := p.token, guild_id := g }
          let pl1 := { pl with voiceState := { pl.voiceState with event := some ev } }
          match pl1.node with
          | none =>
            let pl2 := { pl1 with state := ConnState.DISCONNECTED }
            ({ s with players := setPlayer s.players g pl2 }, [],
             some "Assertion failed. The Player does not have a node.")
          | some nd =>
            if usaEndpoint ep then
              if truthyS nd.region ∧ nd.region ≠ some "USA" then
                match s.nodes.filter
                    (fun m => m.region = some "USA" ∧ m.state = NodeState.CONNECTED) with
                | t :: _ =>
                  let (pl2, es) := moveNodeCall g pl1 t
                  ({ s with players := setPlayer s.players g pl2 }, es, none)
                | [] => serverUpdateFinish s g pl1
              else serverUpdateFinish s g pl1
            else if truthyS nd.region ∧ nd.region ≠ some "EU" then
              match s.nodes.filter
                  (fun m => m.region = some "EU" ∧ m.state = NodeState.CONNECTED) with
              | t :: _ =>
                let (pl2, es) := moveNodeCall g pl1 t
                ({ s with players := setPlayer s.players g pl2 }, es, none)
              | [] => serverUpdateFinish s g pl1
            else serverUpdateFinish s g pl1
      else (s, [], none)

/-- Delivering two payloads in sequence, collecting both effect lists and
both thrown-error slots. -/
def handleTwo (s : VState) (p1 p2 : Payload) :
    VState × List Effect × Option String × Option String :=
  let r1 := handleVoiceUpdate s p1
  let r2 := handleVoiceUpdate r1.1 p2
  (r2.1, r1.2.1 ++ r2.2.1, r1.2.2, r2.2.2)

/-- A titled collection of tracks as returned by the catalog collaborator
methods `getAlbum`, `getPlaylist`, `getArtistTopTracks`. -/
structure TitledList where
  title : String
  tracks : List TrackData
deriving DecidableEq

/-- A search result as produced by `Vulkava.search` and the catalog
loaders: load type, playlist info, constructed track objects. -/
structure SearchResult where
  loadType : String
  playlistInfo : PlaylistInfo
  tracks : List TrackData
deriving DecidableEq

/-- Capture groups of a successful `APPLE_MUSIC_REGEX` match: group 1 is
the storefront, group 2 the kind (album, playlist, artist, music-video),
group 3 the content id and group 4 the optional `?i=` track id. -/
structure AppleMatch where
  storefront : String
  kind : String
  contentId : String
  trackId : Option String
deriving DecidableEq

/-- Capture groups of a successful `DEEZER_REGEX` match: kind (track,
album, playlist) and id. -/
structure DeezerMatch where
  kind : String
  id : String
deriving DecidableEq

/-- Capture groups of a successful `SPOTIFY_REGEX` match: kind (album,
playlist, track) and id. -/
structure SpotifyMatch where
  kind : String
  id : String
deriving DecidableEq

/-- Environment supplying every call that `search` makes outside the
embedded source: the JavaScript regex engine (the three URL matchers),
the catalog collaborator lookups (classes under `lib/sources/`, not in
this snapshot), the node REST call `loadtracks` (keyed by node id and
query) and the `Track` constructor (class `lib/Track.ts`, not in this
snapshot).  The three `Enabled` flags model whether the collaborator
field was instantiated in the constructor (`disabledSources`). -/
structure SearchEnv where
  appleEnabled : Bool
  deezerEnabled : Bool
  spotifyEnabled : Bool
  matchApple : String → Option AppleMatch
  matchDeezer : String → Option DeezerMatch
  matchSpotify : String → Option SpotifyMatch
  appleMusicVideo : String → String → TrackData
  appleTrack : String → String → TrackData
  appleAlbum : String → String → TitledList
  applePlaylist : String → String → TitledList
  appleArtistTop : String → String → TitledList
  deezerTrack : String → TrackData
  deezerAlbum : String → TitledList
  deezerPlaylist : String → TitledList
  spotifyTrack : String → TrackData
  spotifyAlbum : String → TitledList
  spotifyPlaylist : String → TitledList
  spotifyArtistTop : String → TitledList
  loadtracks : String → String → LoadTracksResult
  mkTrack : ITrack → TrackData

/-- The running sum `list.tracks.reduce((acc, curr) => acc + curr.duration, 0)`. -/
def sumDurations (l : List TrackData) : Int :=
  l.foldl (fun acc t => acc + t.duration) 0

/-- The source writes `playlistInfo: \x7b\x7d as PlaylistInfo` for
TRACK_LOADED results: an empty object unsoundly cast.  No field of it is
ever read, so it is embedded as a fixed placeholder value. -/
def castEmptyPlaylistInfo : PlaylistInfo :=
  { name := "", duration := 0, selectedTrack := 0 }

/-- The private `loadFromAppleMusic` method: null when the collaborator is
absent or the query does not match `APPLE_MUSIC_REGEX`, otherwise the
result built from the collaborator lookups, by match kind. -/
def loadFromAppleMusic (env : SearchEnv) (q : String) : Option SearchResult :=
  if ¬ env.appleEnabled then none
  else
    match env.matchApple q with
    | none => none
    | some m =>
      if m.kind = "music-video" then
        some { loadType := "TRACK_LOADED", playlistInfo := castEmptyPlaylistInfo,
               tracks := [env.appleMusicVideo m.contentId m.storefront] }
      else if m.kind = "album" then
        if truthyS m.trackId then
          some { loadType := "TRACK_LOADED", playlistInfo := castEmptyPlaylistInfo,
                 tracks := [env.appleTrack (m.trackId.getD "") m.storefront] }
        else
          let list := env.appleAlbum m.contentId m.storefront
          some { loadType := "PLAYLIST_LOADED",
                 playlistInfo := { name := list.title, duration := sumDurations list.tracks,
                                   selectedTrack := 0 },
                 tracks := list.tracks }
      else if m.kind = "playlist" then
        let list := env.applePlaylist m.contentId m.storefront
        some { loadType := "PLAYLIST_LOADED",
               playlistInfo := { name := list.title, duration := sumDurations list.tracks,
                                 selectedTrack := 0 },
               tracks := list.tracks }
      else if m.kind = "artist" then
        let list := env.appleArtistTop m.contentId m.storefront
        some { loadType := "PLAYLIST_LOADED",
               playlistInfo := { name := list.title, duration := sumDurations list.tracks,
                                 selectedTrack := 0 },
               tracks := list.tracks }
      else none

/-- The private `loadFromDeezer` method. -/
def loadFromDeezer (env : SearchEnv) (q : String) : Option SearchResult :=
  if ¬ env.deezerEnabled then none
  else
    match env.matchDeezer q with
    | none => none
    | some m =>
      if m.kind = "track" then
        some { loadType := "TRACK_LOADED", playlistInfo := castEmptyPlaylistInfo,
               tracks := [env.deezerTrack m.id] }
      else if m.kind = "album" then
        let list := env.deezerAlbum m.id
        some { loadType := "PLAYLIST_LOADED",
               playlistInfo := { name := list.title, duration := sumDurations list.tracks,
                                 selectedTrack := 0 },
               tracks := list.tracks }
      else if m.kind = "playlist" then
        let list := env.deezerPlaylist m.id
        some { loadType := "PLAYLIST_LOADED",
               playlistInfo := { name := list.title, duration := sumDurations list.tracks,
                                 selectedTrack := 0 },
               tracks := list.tracks }
      else none

/-- The private `loadFromSpotify` method.  The `artist` case is present in
the source switch although `SPOTIFY_REGEX` never produces it. -/
def loadFromSpotify (env : SearchEnv) (q : String) : Option SearchResult :=
  if ¬ env.spotifyEnabled then none
  else
    match env.matchSpotify q with
    | none => none
    | some m =>
      if m.kind = "track" then
        some { loadType := "TRACK_LOADED", playlistInfo := castEmptyPlaylistInfo,
               tracks := [env.spotifyTrack m.id] }
      else if m.kind = "album" then
        let list := env.spotifyAlbum m.id
        some { loadType := "PLAYLIST_LOADED",
               playlistInfo := { name := list.title, duration := sumDurations list.tracks,
                                 selectedTrack := 0 },
               tracks := list.tracks }
      else if m.kind = "playlist" then
        let list := env.spotifyPlaylist m.id
        some { loadType := "PLAYLIST_LOADED",
               playlistInfo := { name := list.title, duration := sumDurations list.tracks,
                                 selectedTrack := 0 },
               tracks := list.tracks }
      else if m.kind = "artist" then
        let list := env.spotifyArtistTop m.id
        some { loadType := "PLAYLIST_LOADED",
               playlistInfo := { name := list.title, duration := sumDurations list.tracks,
                                 selectedTrack := 0 },
               tracks := list.tracks }
      else none

/-- The search-source map of `search` with its default:
`sourceMap[source] || 'ytsearch:'`. -/
def sourcePre (source : String) : String :=
  if source = "youtube" then "ytsearch:"
  else if source = "youtubemusic" then "ytmsearch:"
  else if source = "soundcloud" then "scsearch:"
  else if source = "odysee" then "odsearch:"
  else if source = "yandex" then "ymsearch:"
  else "ytsearch:"

/-- The cache scan of `search`: `this.cache.each.map(x => \x7b if (x.q ===
query) res = x.v \x7d)` keeps overwriting `res`, so the LAST matching
entry wins. -/
def cacheLast? (c : List CacheEntry) (q : String) : Option LoadTracksResult :=
  c.foldl (fun acc e => if e.q = q then some e.v else acc) none

/-- Outcome of a `search` call. -/
inductive SearchOut
  /-- normal result with constructed `Track` objects -/
  | ok (r : SearchResult)
  /-- the LOAD_FAILED / NO_MATCHES branch returns the raw node result via
  an unsound cast (`res as unknown as SearchResult`), with raw tracks -/
  | okRaw (r : LoadTracksResult)
  /-- propagated `No connected nodes!` error thrown by `bestNode` -/
  | errNoNodes
  /-- propagated non-termination of `bestNode` -/
  | hang
  /-- propagated TypeError of `bestNode` on an empty pool -/
  | crash
deriving DecidableEq

/-- Observable node REST calls made by `search`. -/
inductive SEffect
  /-- a `loadtracks?identifier=` request on the selected node -/
  | loadRequest (nodeId : String) (q : String)
deriving DecidableEq

/-- Final processing of the raw load result in `search`: return the raw
object for LOAD_FAILED / NO_MATCHES, otherwise construct `Track` objects
and, for PLAYLIST_LOADED, overwrite `playlistInfo.duration` with the sum
of the member durations.  (In JavaScript that overwrite also mutates the
object aliased from the cache; no later read in the embedded code depends
on the cached duration, and the embedding keeps the cache entry as stored.) -/
def finishLoad (env : SearchEnv) (res : LoadTracksResult) : SearchOut :=
  if res.loadType = "LOAD_FAILED" ∨ res.loadType = "NO_MATCHES" then
    SearchOut.okRaw res
  else
    let tracks := res.tracks.map env.mkTrack
    let pi :=
      if res.loadType = "PLAYLIST_LOADED" then
        { res.playlistInfo with duration := sumDurations tracks }
      else res.playlistInfo
    SearchOut.ok { loadType := res.loadType, playlistInfo := pi, tracks := tracks }

/-- The query-rewriting step of `search`: prepend the search-source tag
unless the query is an http(s) URL. -/
def finalQuery (q src : String) : String :=
  if ¬ jsStartsWith q "https://" ∧ ¬ jsStartsWith q "http://" then
    sourcePre src ++ q
  else q

/-- The public `search` method of `src/index.ts`.  Note the first line of
the source is `const node = this.bestNode;`: the getter runs (sorting the
pool, possibly throwing) before the catalog collaborators are probed. -/
def search (env : SearchEnv) (s : VState) (now : Nat) (q : String) (source : String) :
    SearchOut × VState × List SEffect :=
  match bestNode s now with
  | (BNRes.err, s1) => (SearchOut.errNoNodes, s1, [])
  | (BNRes.hang, s1) => (SearchOut.hang, s1, [])
  | (BNRes.crash, s1) => (SearchOut.crash, s1, [])
  | (BNRes.ok n, s1) =>
    match (loadFromAppleMusic env q).orElse
        (fun _ => (loadFromDeezer env q).orElse (fun _ => loadFromSpotify env q)) with
    | some r => (SearchOut.ok r, s1, [])
    | none =>
      let q' := finalQuery q source
      if s1.cache.length = 0 then
        let res := env.loadtracks n.id q'
        (finishLoad env res, { s1 with cache := s1.cache ++ [{ q := q', v := res }] },
         [SEffect.loadRequest n.id q'])
      else
        match cacheLast? s1.cache q' with
        | some v => (finishLoad env v, s1, [])
        | none =>
          let res := env.loadtracks n.id q'
          (finishLoad env res, { s1 with cache := s1.cache ++ [{ q := q', v := res }] },
           [SEffect.loadRequest n.id q'])

/-! ### Helper lemmas about the players map -/

theorem truthyS_some {s : String} (h : s ≠ "") : truthyS (some s) = true := by
  simp [truthyS, h]

theorem truthyS_none : truthyS none = false := rfl

theorem getPlayer_cons_pos {kv : String × PlayerData} {rest : List (String × PlayerData)}
    {g : String} (hk : kv.1 = g) : getPlayer (kv :: rest) g = some kv.2 := by
  simp [getPlayer, List.find?_cons_of_pos, hk]

theorem getPlayer_cons_neg {kv : String × PlayerData} {rest : List (String × PlayerData)}
    {g : String} (hk : kv.1 ≠ g) : getPlayer (kv :: rest) g = getPlayer rest g := by
  simp only [getPlayer]
  rw [List.find?_cons_of_neg _ (by simpa using hk)]

theorem getPlayer_setPlayer_self {ps : List (String × PlayerData)} {g : String}
    {pl : PlayerData} (h : getPlayer ps g = some pl) (p' : PlayerData) :
    getPlayer (setPlayer ps g p') g = some p' := by
  induction ps with
  | nil => simp [getPlayer] at h
  | cons kv rest ih =>
    by_cases hk : kv.1 = g
    · rw [setPlayer, if_pos hk, getPlayer_cons_pos rfl]
    · rw [setPlayer, if_neg hk, getPlayer_cons_neg hk]
      rw [getPlayer_cons_neg hk] at h
      exact ih h

theorem setPlayer_eq_of_get {ps : List (String × PlayerData)} {g : String}
    {pl : PlayerData} (h : getPlayer ps g = some pl) : setPlayer ps g pl = ps := by
  induction ps with
  | nil => rfl
  | cons kv rest ih =>
    by_cases hk : kv.1 = g
    · rw [getPlayer_cons_pos hk] at h
      have hv : kv.2 = pl := Option.some.inj h
      rw [setPlayer, if_pos hk, ← hk, ← hv, Prod.mk.eta]
    · rw [getPlayer_cons_neg hk] at h
      rw [setPlayer, if_neg hk, ih h]

theorem setPlayer_setPlayer (ps : List (String × PlayerData)) (g : String)
    (a b : PlayerData) : setPlayer (setPlayer ps g a) g b = setPlayer ps g b := by
  induction ps with
  | nil => rfl
  | cons kv rest ih =>
    by_cases hk : kv.1 = g
    · simp [setPlayer, hk]
    · simp [setPlayer, hk, ih]

theorem getPlayer_setPlayer_ne {ps : List (String × PlayerData)} {g g' : String}
    (h : g' ≠ g) (p' : PlayerData) :
    getPlayer (setPlayer ps g p') g' = getPlayer ps g' := by
  induction ps with
  | nil => rfl
  | cons kv rest ih =>
    by_cases hk : kv.1 = g
    · rw [setPlayer, if_pos hk,
        getPlayer_cons_neg (fun hgg => h hgg.symm),
        getPlayer_cons_neg (fun hgg => h (hgg.symm.trans hk))]
    · rw [setPlayer, if_neg hk]
      by_cases hk' : kv.1 = g'
      · rw [getPlayer_cons_pos hk', getPlayer_cons_pos hk']
      · rw [getPlayer_cons_neg hk', getPlayer_cons_neg hk']
        exact ih

/-! ### Helper lemmas about node sorting -/

/-- The first element of a list attaining the minimal penalty, defined by
the same recursion shape as the head of an insertion sort. -/
def firstMin? : List NodeData → Option NodeData
  | [] => none
  | x :: xs =>
    match firstMin? xs with
    | none => some x
    | some y => some (if nodeLE x y then x else y)

theorem head_orderedInsert (x : NodeData) (l : List NodeData) :
    (l.orderedInsert nodeLE x).head? =
      some (match l.head? with
        | none => x
        | some y => if nodeLE x y then x else y) := by
  cases l with
  | nil => rfl
  | cons y ys =>
    by_cases hc : nodeLE x y
    · rw [List.orderedInsert, if_pos hc]
      simp only [List.head?_cons]
      rw [if_pos hc]
    · rw [List.orderedInsert, if_neg hc]
      simp only [List.head?_cons]
      rw [if_neg hc]

theorem head_sortNodes (l : List NodeData) : (sortNodes l).head? = firstMin? l := by
  induction l with
  | nil => rfl
  | cons x xs ih =>
    rw [sortNodes, List.insertionSort, head_orderedInsert]
    rw [sortNodes] at ih
    rw [ih]
    simp only [firstMin?]
    cases firstMin? xs <;> rfl

theorem firstMin?_mem : ∀ {l : List NodeData} {n : NodeData},
    firstMin? l = some n → n ∈ l := by
  intro l
  induction l with
  | nil => intro n h; simp [firstMin?] at h
  | cons x xs ih =>
    intro n h
    rw [firstMin?] at h
    cases hx : firstMin? xs with
    | none =>
      rw [hx] at h
      exact (Option.some.inj h) ▸ List.mem_cons_self x xs
    | some y =>
      rw [hx] at h
      have h' := Option.some.inj h
      by_cases hc : nodeLE x y
      · rw [if_pos hc] at h'
        exact h' ▸ List.mem_cons_self x xs
      · rw [if_neg hc] at h'
        rw [h'] at hx
        exact List.mem_cons_of_mem x (ih hx)

theorem firstMin?_le : ∀ {l : List NodeData} {n : NodeData},
    firstMin? l = some n → ∀ m ∈ l, n.totalPenalties ≤ m.totalPenalties := by
  intro l
  induction l with
  | nil => intro n h; simp [firstMin?] at h
  | cons x xs ih =>
    intro n h
    rw [firstMin?] at h
    cases hx : firstMin? xs with
    | none =>
      rw [hx] at h
      have h' := Option.some.inj h
      have hxs : xs = [] := by
        cases xs with
        | nil => rfl
        | cons z zs =>
          rw [firstMin?] at hx
          cases hz : firstMin? zs <;> simp [hz] at hx
      subst hxs
      intro m hm
      rw [List.mem_singleton] at hm
      rw [← h', hm]
    | some y =>
      rw [hx] at h
      have h' := Option.some.inj h
      intro m hm
      rcases List.mem_cons.mp hm with hmx | hmxs
      · by_cases hc : nodeLE x y
        · rw [if_pos hc] at h'; rw [← h', hmx]
        · rw [if_neg hc] at h'
          rw [← h', hmx]
          exact le_of_not_le hc
      · have hy := ih hx m hmxs
        by_cases hc : nodeLE x y
        · rw [if_pos hc] at h'; rw [← h']; exact le_trans hc hy
        · rw [if_neg hc] at h'; rw [← h']; exact hy

theorem sortNodes_sortNodes (l : List NodeData) :
    sortNodes (sortNodes l) = sortNodes l :=
  (List.sorted_insertionSort nodeLE l).insertionSort_eq

/-! ### Claim C1 -/

/-- Pool whose minimum-penalty node is DISCONNECTED while a CONNECTED
node exists. -/
def c1State : VState :=
  { clientId := "me",
    nodes := [{ id := "A", state := NodeState.DISCONNECTED, totalPenalties := 0, region := none },
              { id := "B", state := NodeState.CONNECTED, totalPenalties := 1, region := none }],
    lastNodeSorting := 0,
    players := [],
    cache := [] }

/-- C1: the claim says `bestNode` fails with NoAvailableNode exactly when
no pool node is CONNECTED, and never fails when at least one node is
CONNECTED.  The code instead sorts all nodes by penalty and throws
whenever the overall minimum-penalty node is not CONNECTED: evaluated on
a pool whose minimum-penalty node is DISCONNECTED but whose other node is
CONNECTED, the getter throws the very error message `No connected nodes!`
while a connected node exists, contradicting both the claim and its own
error text. -/
theorem bestNode_err_despite_connected :
    (bestNode c1State 100000).1 = BNRes.err ∧
    c1State.nodes.any (fun n => decide (n.state = NodeState.CONNECTED)) = true := by
  decide

/-! ### Claim C2 -/

/-- Pool with a single CONNECTED node, fresh instance
(`lastNodeSorting = 0`). -/
def c2State : VState :=
  { clientId := "me",
    nodes := [{ id := "A", state := NodeState.CONNECTED, totalPenalties := 0, region := none }],
    lastNodeSorting := 0,
    players := [],
    cache := [] }

/-- C2: the claim says every rescan refreshes the cache timestamp so that
a second call within 30 seconds takes the cached fast path.  The rescan
path of the code never writes `Date.now()` into `lastNodeSorting`:
evaluated at `now = 100000`, the rescan succeeds but leaves
`lastNodeSorting` at 0, hence a second call one millisecond later is
still outside the window `lastNodeSorting + 30000` and rescans again. -/
theorem bestNode_rescan_keeps_timestamp :
    (bestNode c2State 100000).1 =
      BNRes.ok { id := "A", state := NodeState.CONNECTED, totalPenalties := 0, region := none } ∧
    (bestNode c2State 100000).2.lastNodeSorting = 0 ∧
    ¬ (100001 < (bestNode c2State 100000).2.lastNodeSorting + 30000) := by
  decide

/-! ### Claim C5 -/

/-- C5: a VOICE_SERVER_UPDATE whose endpoint is missing or empty is a
complete no-op: the state (all stored facts included) is unchanged, no
player call is made and nothing is thrown. -/
theorem handleVoiceUpdate_empty_endpoint_noop (s : VState) (p : Payload)
    (ht : p.t = "VOICE_SERVER_UPDATE") (hep : truthyS p.endpoint = false) :
    handleVoiceUpdate s p = (s, [], none) := by
  have hts : ¬ (p.t = "VOICE_STATE_UPDATE") := by
    rw [ht]; decide
  unfold handleVoiceUpdate
  by_cases h1 : p.op ≠ 0 ∨ ¬ truthyS p.guild_id
  · rw [if_pos h1]
  · rw [if_neg h1]
    cases hg : getPlayer s.players (p.guild_id.getD "") with
    | none => simp only [hg]
    | some pl =>
      simp only [hg]
      rw [if_neg hts, if_pos ht, if_pos (by simp [hep])]

/-- Witness for C5 at a concrete state and packet. -/
theorem handleVoiceUpdate_empty_endpoint_noop_w :
    handleVoiceUpdate c2State
        { op := 0, t := "VOICE_SERVER_UPDATE", guild_id := some "g", user_id := "",
          session_id := "", channel_id := none, endpoint := some "", token := "tk" } =
      (c2State, [], none) :=
  handleVoiceUpdate_empty_endpoint_noop c2State _ rfl rfl

/-! ### Claim C10 -/

/-- C10: on a VOICE_SERVER_UPDATE with a non-empty endpoint, if the
player's current node has no truthy configured region label, no
region-aware migration happens: no `moveNode` call is made, the player
keeps its node (only the event fact is stored), and the handshake is sent
exactly when the session-id fact is present — for every endpoint,
whatever region it implies. -/
theorem handleVoiceUpdate_no_region_keeps_node
    (s : VState) (g u sid tok ep : String) (ch : Option String)
    (pl : PlayerData) (nd : NodeData)
    (hg : g ≠ "") (hget : getPlayer s.players g = some pl)
    (hnode : pl.node = some nd) (hreg : truthyS nd.region = false) (hep : ep ≠ "") :
    handleVoiceUpdate s
        { op := 0, t := "VOICE_SERVER_UPDATE", guild_id := some g, user_id := u,
          session_id := sid, channel_id := ch, endpoint := some ep, token := tok } =
      ({ s with players := setPlayer s.players g { pl with voiceState := { pl.voiceState with event := some { endpoint := ep, token := tok, guild_id := g } } } },
       if truthyS pl.voiceState.sessionId then
         [Effect.sendVoiceUpdate g pl.voiceState.sessionId
            (some { endpoint := ep, token := tok, guild_id := g })]
       else [],
       none) := by
  simp [handleVoiceUpdate, serverUpdateFinish, hget, hnode, hreg,
    truthyS_some hg, truthyS_some hep]

/-- Witness for C10: concrete state with a region-less node, a stored
session id and a USA-implying endpoint; the node is kept and the
handshake goes out. -/
theorem handleVoiceUpdate_no_region_keeps_node_w :
    handleVoiceUpdate
        { clientId := "me",
          nodes := [{ id := "E", state := NodeState.CONNECTED, totalPenalties := 0,
                      region := some "USA" }],
          lastNodeSorting := 0,
          players := [("g1",
            { voiceChannelId := "vc",
              node := some { id := "N", state := NodeState.CONNECTED, totalPenalties := 0,
                             region := none },
              state := ConnState.CONNECTED,
              voiceState := { sessionId := some "sid", event := none } })],
          cache := [] }
        { op := 0, t := "VOICE_SERVER_UPDATE", guild_id := some "g1", user_id := "u",
          session_id := "x", channel_id := none, endpoint := some "us-east.dc",
          token := "tk" } =
      ({ clientId := "me",
         nodes := [{ id := "E", state := NodeState.CONNECTED, totalPenalties := 0,
                     region := some "USA" }],
         lastNodeSorting := 0,
         players := [("g1",
           { voiceChannelId := "vc",
             node := some { id := "N", state := NodeState.CONNECTED, totalPenalties := 0,
                            region := none },
             state := ConnState.CONNECTED,
             voiceState := { sessionId := some "sid",
                             event := some { endpoint := "us-east.dc", token := "tk",
                                             guild_id := "g1" } } })],
         cache := [] },
       [Effect.sendVoiceUpdate "g1" (some "sid")
          (some { endpoint := "us-east.dc", token := "tk", guild_id := "g1" })],
       none) := by
  have h := handleVoiceUpdate_no_region_keeps_node
    { clientId := "me",
      nodes := [{ id := "E", state := NodeState.CONNECTED, totalPenalties := 0,
                  region := some "USA" }],
      lastNodeSorting := 0,
      players := [("g1",
        { voiceChannelId := "vc",
          node := some { id := "N", state := NodeState.CONNECTED, totalPenalties := 0,
                         region := none },
          state := ConnState.CONNECTED,
          voiceState := { sessionId := some "sid", event := none } })],
      cache := [] }
    "g1" "u" "x" "tk" "us-east.dc" none
    { voiceChannelId := "vc",
      node := some { id := "N", state := NodeState.CONNECTED, totalPenalties := 0,
                     region := none },
      state := ConnState.CONNECTED,
      voiceState := { sessionId := some "sid", event := none } }
    { id := "N", state := NodeState.CONNECTED, totalPenalties := 0, region := none }
    (by decide) rfl rfl rfl (by decide)
  rw [h]
  decide

/-! ### Claim C7 -/

/-- Concrete player whose node is present but DISCONNECTED, with both
facts available. -/
def c7State : VState :=
  { clientId := "me",
    nodes := [],
    lastNodeSorting := 0,
    players := [("g1",
      { voiceChannelId := "vc",
        node := some { id := "N", state := NodeState.DISCONNECTED, totalPenalties := 0,
                       region := none },
        state := ConnState.CONNECTED,
        voiceState := { sessionId := some "sid", event := none } })],
    cache := [] }

/-- C7: the claim says that whenever a handshake would be emitted while
the owning node is null or not CONNECTED, AssertionFailed is raised.  The
code only checks for a null node: with a present but DISCONNECTED node
and both facts available, the VOICE_SERVER_UPDATE branch emits the
handshake to the disconnected node and throws nothing. -/
theorem handleVoiceUpdate_emits_to_disconnected_node :
    (handleVoiceUpdate c7State
        { op := 0, t := "VOICE_SERVER_UPDATE", guild_id := some "g1", user_id := "u",
          session_id := "x", channel_id := none, endpoint := some "ep.host",
          token := "tk" }).2 =
      ([Effect.sendVoiceUpdate "g1" (some "sid")
          (some { endpoint := "ep.host", token := "tk", guild_id := "g1" })],
       none) ∧
    (getPlayer c7State.players "g1").map
        (fun pl => pl.node.map (fun nd => decide (nd.state = NodeState.CONNECTED))) =
      some (some false) := by
  decide

/-- C7 (amended): AssertionFailed is raised exactly in the null-node case:
when a VOICE_SERVER_UPDATE with a non-empty endpoint reaches a player
whose node is null, the event fact is still stored, the player's own
state is set to DISCONNECTED, the error is thrown, no handshake or move is
attempted — and every other guild's player is untouched, so the failure
is fatal only to the affected session. -/
theorem handleVoiceUpdate_null_node_assertion
    (s : VState) (g u sid tok ep : String) (ch : Option String)
    (pl : PlayerData)
    (hg : g ≠ "") (hget : getPlayer s.players g = some pl)
    (hnode : pl.node = none) (hep : ep ≠ "") :
    handleVoiceUpdate s
        { op := 0, t := "VOICE_SERVER_UPDATE", guild_id := some g, user_id := u,
          session_id := sid, channel_id := ch, endpoint := some ep, token := tok } =
      ({ s with players := setPlayer s.players g { pl with state := ConnState.DISCONNECTED, voiceState := { pl.voiceState with event := some { endpoint := ep, token := tok, guild_id := g } } } },
       [], some "Assertion failed. The Player does not have a node.") ∧
    (∀ g', g' ≠ g →
      getPlayer (handleVoiceUpdate s
        { op := 0, t := "VOICE_SERVER_UPDATE", guild_id := some g, user_id := u,
          session_id := sid, channel_id := ch, endpoint := some ep, token := tok }).1.players g' =
      getPlayer s.players g') := by
  have hmain : handleVoiceUpdate s
      { op := 0, t := "VOICE_SERVER_UPDATE", guild_id := some g, user_id := u,
        session_id := sid, channel_id := ch, endpoint := some ep, token := tok } =
      ({ s with players := setPlayer s.players g { pl with state := ConnState.DISCONNECTED, voiceState := { pl.voiceState with event := some { endpoint := ep, token := tok, guild_id := g } } } },
       [], some "Assertion failed. The Player does not have a node.") := by
    simp [handleVoiceUpdate, hget, hnode, truthyS_some hg, truthyS_some hep]
  refine ⟨hmain, ?_⟩
  intro g' hg'
  rw [hmain]
  exact getPlayer_setPlayer_ne hg' _

/-- Witness for C7 (amended) at a concrete two-player state: the guilty
session is marked DISCONNECTED and throws, the other session is intact. -/
theorem handleVoiceUpdate_null_node_assertion_w :
    (handleVoiceUpdate
        { clientId := "me", nodes := [], lastNodeSorting := 0,
          players := [("g1",
            { voiceChannelId := "vc", node := none, state := ConnState.CONNECTED,
              voiceState := { sessionId := some "sid", event := none } }),
            ("g2",
            { voiceChannelId := "vc2", node := none, state := ConnState.CONNECTED,
              voiceState := { sessionId := none, event := none } })],
          cache := [] }
        { op := 0, t := "VOICE_SERVER_UPDATE", guild_id := some "g1", user_id := "u",
          session_id := "x", channel_id := none, endpoint := some "ep.host",
          token := "tk" }).2.2 =
      some "Assertion failed. The Player does not have a node." ∧
    getPlayer (handleVoiceUpdate
        { clientId := "me", nodes := [], lastNodeSorting := 0,
          players := [("g1",
            { voiceChannelId := "vc", node := none, state := ConnState.CONNECTED,
              voiceState := { sessionId := some "sid", event := none } }),
            ("g2",
            { voiceChannelId := "vc2", node := none, state := ConnState.CONNECTED,
              voiceState := { sessionId := none, event := none } })],
          cache := [] }
        { op := 0, t := "VOICE_SERVER_UPDATE", guild_id := some "g1", user_id := "u",
          session_id := "x", channel_id := none, endpoint := some "ep.host",
          token := "tk" }).1.players "g2" =
      some { voiceChannelId := "vc2", node := none, state := ConnState.CONNECTED,
             voiceState := { sessionId := none, event := none } } := by
  have h := handleVoiceUpdate_null_node_assertion
    { clientId := "me", nodes := [], lastNodeSorting := 0,
      players := [("g1",
        { voiceChannelId := "vc", node := none, state := ConnState.CONNECTED,
          voiceState := { sessionId := some "sid", event := none } }),
        ("g2",
        { voiceChannelId := "vc2", node := none, state := ConnState.CONNECTED,
          voiceState := { sessionId := none, event := none } })],
      cache := [] }
    "g1" "u" "x" "tk" "ep.host" none
    { voiceChannelId := "vc", node := none, state := ConnState.CONNECTED,
      voiceState := { sessionId := some "sid", event := none } }
    (by decide) rfl rfl (by decide)
  refine ⟨by rw [h.1], ?_⟩
  rw [h.2 "g2" (by decide)]
  decide

/-! ### Claim C3 -/

/-- Player that has both facts stored (handshake already emitted). -/
def c3State : VState :=
  { clientId := "me", nodes := [], lastNodeSorting := 0,
    players := [("g1",
      { voiceChannelId := "vc",
        node := some { id := "N", state := NodeState.CONNECTED, totalPenalties := 0,
                       region := none },
        state := ConnState.CONNECTED,
        voiceState := { sessionId := some "sid",
                        event := some { endpoint := "ep.host", token := "tk",
                                        guild_id := "g1" } } })],
    cache := [] }

/-- C3: the claim says a duplicate delivery of an identical fact is a
no-op with no second handshake.  Delivering the identical session-id fact
to a session that already holds both facts does leave the stored facts
unchanged, but the VOICE_STATE_UPDATE branch unconditionally calls
`player.sendVoiceUpdate()` whenever the assignment fact is present, so a
second handshake IS emitted. -/
theorem duplicate_fact_emits_second_handshake :
    (handleVoiceUpdate c3State
        { op := 0, t := "VOICE_STATE_UPDATE", guild_id := some "g1", user_id := "me",
          session_id := "sid", channel_id := some "vc", endpoint := none,
          token := "" }).1 = c3State ∧
    (handleVoiceUpdate c3State
        { op := 0, t := "VOICE_STATE_UPDATE", guild_id := some "g1", user_id := "me",
          session_id := "sid", channel_id := some "vc", endpoint := none,
          token := "" }).2.1 =
      [Effect.sendVoiceUpdate "g1" (some "sid")
        (some { endpoint := "ep.host", token := "tk", guild_id := "g1" })] := by
  decide

/-- C3 (amended): for a session holding both facts on a node with no
truthy region, re-delivering the identical session-id fact, or the
identical server-assignment fact, leaves the whole client state unchanged
(the facts are re-stored with their old values) — but in both cases the
handshake is re-emitted with the stored facts rather than suppressed. -/
theorem duplicate_fact_keeps_facts_but_reemits
    (s : VState) (g sid ep tok : String) (pl : PlayerData) (nd : NodeData)
    (hg : g ≠ "") (hget : getPlayer s.players g = some pl)
    (hsid : pl.voiceState.sessionId = some sid)
    (hev : pl.voiceState.event = some { endpoint := ep, token := tok, guild_id := g })
    (hnode : pl.node = some nd) (hreg : truthyS nd.region = false)
    (hsidne : sid ≠ "") (hep : ep ≠ "") :
    handleVoiceUpdate s
        { op := 0, t := "VOICE_STATE_UPDATE", guild_id := some g, user_id := s.clientId,
          session_id := sid, channel_id := some pl.voiceChannelId, endpoint := none,
          token := "" } =
      (s, [Effect.sendVoiceUpdate g (some sid)
            (some { endpoint := ep, token := tok, guild_id := g })], none) ∧
    handleVoiceUpdate s
        { op := 0, t := "VOICE_SERVER_UPDATE", guild_id := some g, user_id := "",
          session_id := "", channel_id := none, endpoint := some ep, token := tok } =
      (s, [Effect.sendVoiceUpdate g (some sid)
            (some { endpoint := ep, token := tok, guild_id := g })], none) := by
  obtain ⟨vc, nod, st, vs⟩ := pl
  replace hsid : vs.sessionId = some sid := hsid
  replace hev : vs.event = some { endpoint := ep, token := tok, guild_id := g } := hev
  replace hnode : nod = some nd := hnode
  obtain ⟨sf, ef⟩ := vs
  replace hsid : sf = some sid := hsid
  replace hev : ef = some { endpoint := ep, token := tok, guild_id := g } := hev
  subst hsid hev hnode
  constructor
  · by_cases hvc : vc = ""
    · subst hvc
      simp [handleVoiceUpdate, hget, truthyS_some hg, truthyS, hg, setPlayer_eq_of_get hget]
    · simp [handleVoiceUpdate, hget, truthyS_some hg, truthyS_some hvc,
        setPlayer_eq_of_get hget]
  · simp [handleVoiceUpdate, serverUpdateFinish, hget, truthyS_some hg, truthyS_some hep,
      truthyS_some hsidne, hreg, setPlayer_eq_of_get hget]

/-- Witness for C3 (amended) at a concrete session. -/
theorem duplicate_fact_keeps_facts_but_reemits_w :
    handleVoiceUpdate c3State
        { op := 0, t := "VOICE_STATE_UPDATE", guild_id := some "g1", user_id := "me",
          session_id := "sid", channel_id := some "vc", endpoint := none, token := "" } =
      (c3State, [Effect.sendVoiceUpdate "g1" (some "sid")
        (some { endpoint := "ep.host", token := "tk", guild_id := "g1" })], none) ∧
    handleVoiceUpdate c3State
        { op := 0, t := "VOICE_SERVER_UPDATE", guild_id := some "g1", user_id := "",
          session_id := "", channel_id := none, endpoint := some "ep.host",
          token := "tk" } =
      (c3State, [Effect.sendVoiceUpdate "g1" (some "sid")
        (some { endpoint := "ep.host", token := "tk", guild_id := "g1" })], none) :=
  duplicate_fact_keeps_facts_but_reemits c3State "g1" "sid" "ep.host" "tk"
    { voiceChannelId := "vc",
      node := some { id := "N", state := NodeState.CONNECTED, totalPenalties := 0,
                     region := none },
      state := ConnState.CONNECTED,
      voiceState := { sessionId := some "sid",
                      event := some { endpoint := "ep.host", token := "tk",
                                      guild_id := "g1" } } }
    { id := "N", state := NodeState.CONNECTED, totalPenalties := 0, region := none }
    (by decide) rfl rfl rfl rfl rfl (by decide) (by decide)

/-! ### Claim C6 -/

/-- Session on an EU-labelled node with neither fact, in a pool holding a
CONNECTED USA-labelled node, so that a USA-implying endpoint triggers
migration. -/
def c6State : VState :=
  { clientId := "me",
    nodes := [{ id := "US1", state := NodeState.CONNECTED, totalPenalties := 0,
                region := some "USA" }],
    lastNodeSorting := 0,
    players := [("g1",
      { voiceChannelId := "vc",
        node := some { id := "EU1", state := NodeState.CONNECTED, totalPenalties := 0,
                       region := some "EU" },
        state := ConnState.CONNECTED,
        voiceState := { sessionId := none, event := none } })],
    cache := [] }

/-- The session-id packet of the C6 scenario. -/
def c6StPkt : Payload :=
  { op := 0, t := "VOICE_STATE_UPDATE", guild_id := some "g1", user_id := "me",
    session_id := "sid", channel_id := none, endpoint := none, token := "" }

/-- The server-assignment packet of the C6 scenario (USA-implying
endpoint). -/
def c6SrvPkt : Payload :=
  { op := 0, t := "VOICE_SERVER_UPDATE", guild_id := some "g1", user_id := "",
    session_id := "", channel_id := none, endpoint := some "us-east.dc", token := "tk" }

/-- C6: the claim says fact reconciliation is commutative for every
session starting with neither fact.  When the assignment triggers the
region-migration branch, the two orders observably differ: session-id
first yields only the migration (and its spec-modelled re-handshake with
both facts), while assignment first makes the migration fire with the
session-id still missing and then emits an additional direct handshake
when the session-id fact arrives. -/
theorem fact_order_observable_under_migration :
    (handleTwo c6State c6StPkt c6SrvPkt).2.1 =
      [Effect.moveNode "g1"
          { id := "US1", state := NodeState.CONNECTED, totalPenalties := 0,
            region := some "USA" },
       Effect.sendVoiceUpdate "g1" (some "sid")
          (some { endpoint := "us-east.dc", token := "tk", guild_id := "g1" })] ∧
    (handleTwo c6State c6SrvPkt c6StPkt).2.1 =
      [Effect.moveNode "g1"
          { id := "US1", state := NodeState.CONNECTED, totalPenalties := 0,
            region := some "USA" },
       Effect.sendVoiceUpdate "g1" none
          (some { endpoint := "us-east.dc", token := "tk", guild_id := "g1" }),
       Effect.sendVoiceUpdate "g1" (some "sid")
          (some { endpoint := "us-east.dc", token := "tk", guild_id := "g1" })] := by
  decide

/-- C6 (amended): as long as the assignment does not trigger the
region-migration branch (here: the current node has no truthy region
label), delivering session-id then assignment produces exactly the same
final state, the same single handshake and the same error slots as the
reverse order. -/
theorem voice_facts_commute_without_migration
    (s : VState) (g sid ep tok : String)
    (pl : PlayerData) (nd : NodeData)
    (hg : g ≠ "") (hget : getPlayer s.players g = some pl)
    (hvs : pl.voiceState = { sessionId := none, event := none })
    (hnode : pl.node = some nd) (hreg : truthyS nd.region = false)
    (hsid : sid ≠ "") (hep : ep ≠ "") :
    handleTwo s
        { op := 0, t := "VOICE_STATE_UPDATE", guild_id := some g, user_id := s.clientId,
          session_id := sid, channel_id := none, endpoint := none, token := "" }
        { op := 0, t := "VOICE_SERVER_UPDATE", guild_id := some g, user_id := "",
          session_id := "", channel_id := none, endpoint := some ep, token := tok } =
    handleTwo s
        { op := 0, t := "VOICE_SERVER_UPDATE", guild_id := some g, user_id := "",
          session_id := "", channel_id := none, endpoint := some ep, token := tok }
        { op := 0, t := "VOICE_STATE_UPDATE", guild_id := some g, user_id := s.clientId,
          session_id := sid, channel_id := none, endpoint := none, token := "" } := by
  obtain ⟨vc, nod, st, vs⟩ := pl
  replace hvs : vs = { sessionId := none, event := none } := hvs
  replace hnode : nod = some nd := hnode
  subst hvs hnode
  have hA1 : handleVoiceUpdate s { op := 0, t := "VOICE_STATE_UPDATE", guild_id := some g, user_id := s.clientId, session_id := sid, channel_id := none, endpoint := none, token := "" } = ({ s with players := setPlayer s.players g { voiceChannelId := vc, node := some nd, state := st, voiceState := { sessionId := some sid, event := none } } }, [], none) := by
    simp [handleVoiceUpdate, hget, truthyS_some hg, truthyS_none]
  have hgA : getPlayer (setPlayer s.players g { voiceChannelId := vc, node := some nd, state := st, voiceState := { sessionId := some sid, event := none } }) g = some { voiceChannelId := vc, node := some nd, state := st, voiceState := { sessionId := some sid, event := none } } :=
    getPlayer_setPlayer_self hget _
  have hA2 : handleVoiceUpdate { s with players := setPlayer s.players g { voiceChannelId := vc, node := some nd, state := st, voiceState := { sessionId := some sid, event := none } } } { op := 0, t := "VOICE_SERVER_UPDATE", guild_id := some g, user_id := "", session_id := "", channel_id := none, endpoint := some ep, token := tok } = ({ s with players := setPlayer s.players g { voiceChannelId := vc, node := some nd, state := st, voiceState := { sessionId := some sid, event := some { endpoint := ep, token := tok, guild_id := g } } } }, [Effect.sendVoiceUpdate g (some sid) (some { endpoint := ep, token := tok, guild_id := g })], none) := by
    simp [handleVoiceUpdate, serverUpdateFinish, hgA, truthyS_some hg, truthyS_some hep, truthyS_some hsid, hreg, setPlayer_setPlayer]
  have hB1 : handleVoiceUpdate s { op := 0, t := "VOICE_SERVER_UPDATE", guild_id := some g, user_id := "", session_id := "", channel_id := none, endpoint := some ep, token := tok } = ({ s with players := setPlayer s.players g { voiceChannelId := vc, node := some nd, state := st, voiceState := { sessionId := none, event := some { endpoint := ep, token := tok, guild_id := g } } } }, [], none) := by
    simp [handleVoiceUpdate, serverUpdateFinish, hget, truthyS_some hg, truthyS_some hep, hreg, truthyS_none]
  have hgB : getPlayer (setPlayer s.players g { voiceChannelId := vc, node := some nd, state := st, voiceState := { sessionId := none, event := some { endpoint := ep, token := tok, guild_id := g } } }) g = some { voiceChannelId := vc, node := some nd, state := st, voiceState := { sessionId := none, event := some { endpoint := ep, token := tok, guild_id := g } } } :=
    getPlayer_setPlayer_self hget _
  have hB2 : handleVoiceUpdate { s with players := setPlayer s.players g { voiceChannelId := vc, node := some nd, state := st, voiceState := { sessionId := none, event := some { endpoint := ep, token := tok, guild_id := g } } } } { op := 0, t := "VOICE_STATE_UPDATE", guild_id := some g, user_id := s.clientId, session_id := sid, channel_id := none, endpoint := none, token := "" } = ({ s with players := setPlayer s.players g { voiceChannelId := vc, node := some nd, state := st, voiceState := { sessionId := some sid, event := some { endpoint := ep, token := tok, guild_id := g } } } }, [Effect.sendVoiceUpdate g (some sid) (some { endpoint := ep, token := tok, guild_id := g })], none) := by
    simp [handleVoiceUpdate, hgB, truthyS_some hg, truthyS_some hsid, truthyS_none, setPlayer_setPlayer]
  simp [handleTwo, hA1, hA2, hB1, hB2]

/-- Witness for C6 (amended): concrete region-less session, both orders
agree. -/
theorem voice_facts_commute_without_migration_w :
    handleTwo
        { clientId := "me", nodes := [], lastNodeSorting := 0,
          players := [("g1",
            { voiceChannelId := "vc",
              node := some { id := "N", state := NodeState.CONNECTED, totalPenalties := 0,
                             region := none },
              state := ConnState.CONNECTED,
              voiceState := { sessionId := none, event := none } })],
          cache := [] }
        { op := 0, t := "VOICE_STATE_UPDATE", guild_id := some "g1", user_id := "me",
          session_id := "sid", channel_id := none, endpoint := none, token := "" }
        { op := 0, t := "VOICE_SERVER_UPDATE", guild_id := some "g1", user_id := "",
          session_id := "", channel_id := none, endpoint := some "us-east.dc",
          token := "tk" } =
    handleTwo
        { clientId := "me", nodes := [], lastNodeSorting := 0,
          players := [("g1",
            { voiceChannelId := "vc",
              node := some { id := "N", state := NodeState.CONNECTED, totalPenalties := 0,
                             region := none },
              state := ConnState.CONNECTED,
              voiceState := { sessionId := none, event := none } })],
          cache := [] }
        { op := 0, t := "VOICE_SERVER_UPDATE", guild_id := some "g1", user_id := "",
          session_id := "", channel_id := none, endpoint := some "us-east.dc",
          token := "tk" }
        { op := 0, t := "VOICE_STATE_UPDATE", guild_id := some "g1", user_id := "me",
          session_id := "sid", channel_id := none, endpoint := none, token := "" } :=
  voice_facts_commute_without_migration
    { clientId := "me", nodes := [], lastNodeSorting := 0,
      players := [("g1",
        { voiceChannelId := "vc",
          node := some { id := "N", state := NodeState.CONNECTED, totalPenalties := 0,
                         region := none },
          state := ConnState.CONNECTED,
          voiceState := { sessionId := none, event := none } })],
      cache := [] }
    "g1" "sid" "us-east.dc" "tk"
    { voiceChannelId := "vc",
      node := some { id := "N", state := NodeState.CONNECTED, totalPenalties := 0,
                     region := none },
      state := ConnState.CONNECTED,
      voiceState := { sessionId := none, event := none } }
    { id := "N", state := NodeState.CONNECTED, totalPenalties := 0, region := none }
    (by decide) rfl rfl rfl rfl (by decide) (by decide)

/-! ### Claim C8 -/

/-- Pool registered in order A (penalty 5), B (penalty 1), both
CONNECTED. -/
def c8State0 : VState :=
  { clientId := "me",
    nodes := [{ id := "A", state := NodeState.CONNECTED, totalPenalties := 5, region := none },
              { id := "B", state := NodeState.CONNECTED, totalPenalties := 1, region := none }],
    lastNodeSorting := 0, players := [], cache := [] }

/-- The pool after one `bestNode` rescan (which permutes the array in
place to B, A) and a subsequent change of the live penalty counters that
leaves both nodes tied at penalty 1. -/
def c8State2 : VState :=
  { (bestNode c8State0 100000).2 with
    nodes := (bestNode c8State0 100000).2.nodes.map
      (fun n => { n with totalPenalties := 1 }) }

/-- C8: the claim says ties on the lowest penalty are broken by original
registration order.  The rescan sorts `this.nodes` in place, so a later
call breaks ties by the most recent sorted order instead: with
registration order A, B, one rescan reorders the pool to B, A; when the
penalties then tie at 1 (both CONNECTED), `bestNode` returns B, not the
first-registered A. -/
theorem bestNode_tie_not_registration_order :
    c8State0.nodes.map (fun n => n.id) = ["A", "B"] ∧
    c8State2.nodes.map (fun n => n.id) = ["B", "A"] ∧
    c8State2.nodes.all
      (fun n => decide (n.state = NodeState.CONNECTED) && decide (n.totalPenalties = 1)) =
      true ∧
    (bestNode c8State2 100000).1 =
      BNRes.ok { id := "B", state := NodeState.CONNECTED, totalPenalties := 1,
                 region := none } := by
  decide

/-- C8 (amended): on the rescan path, `bestNode` returns the left-most
minimal-penalty node of the CURRENT `nodes` array (the sort is stable), a
node whose penalty is minimal over the whole pool; and the choice is
deterministic: any immediately repeated call — cached fast path or fresh
rescan alike — returns the same node.  The current array order coincides
with registration order only until a rescan first permutes the array. -/
theorem bestNode_scan_first_min (s : VState) (now : Nat) (n : NodeData)
    (hslow : ¬ now < s.lastNodeSorting + 30000)
    (hok : (bestNode s now).1 = BNRes.ok n) :
    firstMin? s.nodes = some n ∧
    (∀ m ∈ s.nodes, n.totalPenalties ≤ m.totalPenalties) ∧
    (∀ now2, (bestNode (bestNode s now).2 now2).1 = BNRes.ok n) := by
  have hbs : bestNode s now = bestNodeScan s := by
    rw [bestNode, if_neg hslow]
  rw [hbs] at hok
  have h1 : (sortNodes s.nodes).head? = some n ∧ n.state = NodeState.CONNECTED := by
    unfold bestNodeScan at hok
    cases hh : (sortNodes s.nodes).head? with
    | none => simp [hh] at hok
    | some m =>
      by_cases hc : m.state = NodeState.CONNECTED
      · simp [hh, hc] at hok
        exact ⟨congrArg some hok, hok ▸ hc⟩
      · simp [hh, hc] at hok
  have hfull : bestNode s now = (BNRes.ok n, { s with nodes := sortNodes s.nodes }) := by
    rw [hbs]
    simp [bestNodeScan, h1.1, h1.2]
  refine ⟨(head_sortNodes s.nodes) ▸ h1.1, fun m hm => firstMin?_le ((head_sortNodes s.nodes) ▸ h1.1) m hm, ?_⟩
  intro now2
  rw [hfull]
  by_cases h2 : now2 < s.lastNodeSorting + 30000
  · rw [bestNode, if_pos (by simpa using h2)]
    cases hsn : sortNodes s.nodes with
    | nil => rw [hsn] at h1; simp at h1
    | cons a tl =>
      rw [hsn] at h1
      simp only [List.head?_cons, Option.some.injEq] at h1
      simp [h1.1, h1.2]
  · rw [bestNode, if_neg (by simpa using h2)]
    simp [bestNodeScan, sortNodes_sortNodes, h1.1, h1.2]

/-- Witness for C8 (amended) on a one-node pool: applying the theorem at
a concrete rescan and re-calling immediately. -/
theorem bestNode_scan_first_min_w :
    firstMin? c2State.nodes =
      some { id := "A", state := NodeState.CONNECTED, totalPenalties := 0, region := none } ∧
    (bestNode (bestNode c2State 100000).2 100031).1 =
      BNRes.ok { id := "A", state := NodeState.CONNECTED, totalPenalties := 0,
                 region := none } := by
  have h := bestNode_scan_first_min c2State 100000
    { id := "A", state := NodeState.CONNECTED, totalPenalties := 0, region := none }
    (by decide) (by decide)
  exact ⟨h.1, h.2.2 100031⟩

/-! ### Claim C9 -/

theorem finishLoad_playlist_sum {env : SearchEnv} {res : LoadTracksResult}
    {r : SearchResult} (h : finishLoad env res = SearchOut.ok r)
    (hl : r.loadType = "PLAYLIST_LOADED") :
    r.playlistInfo.duration = sumDurations r.tracks := by
  unfold finishLoad at h
  by_cases hf : res.loadType = "LOAD_FAILED" ∨ res.loadType = "NO_MATCHES"
  · rw [if_pos hf] at h
    exact absurd h (by simp)
  · rw [if_neg hf] at h
    simp only [SearchOut.ok.injEq] at h
    by_cases hp : res.loadType = "PLAYLIST_LOADED"
    · rw [← h]
      simp [hp]
    · rw [← h] at hl
      simp at hl
      exact absurd hl hp

theorem loadFromAppleMusic_playlist_sum {env : SearchEnv} {q : String}
    {r : SearchResult} (h : loadFromAppleMusic env q = some r)
    (hl : r.loadType = "PLAYLIST_LOADED") :
    r.playlistInfo.duration = sumDurations r.tracks := by
  unfold loadFromAppleMusic at h
  by_cases he : env.appleEnabled
  · rw [if_neg (by simpa using he)] at h
    cases hm : env.matchApple q with
    | none => rw [hm] at h; exact absurd h (by simp)
    | some m =>
      simp only [hm] at h
      split_ifs at h <;> simp only [Option.some.injEq] at h <;>
        (rw [← h] at hl ⊢; try simp_all)
  · rw [if_pos (by simpa using he)] at h
    exact absurd h (by simp)

theorem loadFromDeezer_playlist_sum {env : SearchEnv} {q : String}
    {r : SearchResult} (h : loadFromDeezer env q = some r)
    (hl : r.loadType = "PLAYLIST_LOADED") :
    r.playlistInfo.duration = sumDurations r.tracks := by
  unfold loadFromDeezer at h
  by_cases he : env.deezerEnabled
  · rw [if_neg (by simpa using he)] at h
    cases hm : env.matchDeezer q with
    | none => rw [hm] at h; exact absurd h (by simp)
    | some m =>
      simp only [hm] at h
      split_ifs at h <;> simp only [Option.some.injEq] at h <;>
        (rw [← h] at hl ⊢; try simp_all)
  · rw [if_pos (by simpa using he)] at h
    exact absurd h (by simp)

theorem loadFromSpotify_playlist_sum {env : SearchEnv} {q : String}
    {r : SearchResult} (h : loadFromSpotify env q = some r)
    (hl : r.loadType = "PLAYLIST_LOADED") :
    r.playlistInfo.duration = sumDurations r.tracks := by
  unfold loadFromSpotify at h
  by_cases he : env.spotifyEnabled
  · rw [if_neg (by simpa using he)] at h
    cases hm : env.matchSpotify q with
    | none => rw [hm] at h; exact absurd h (by simp)
    | some m =>
      simp only [hm] at h
      split_ifs at h <;> simp only [Option.some.injEq] at h <;>
        (rw [← h] at hl ⊢; try simp_all)
  · rw [if_pos (by simpa using he)] at h
    exact absurd h (by simp)

/-- Every `SearchOut.ok` result of `search` comes either from one of the
three catalog loaders or from `finishLoad` on some raw node result. -/
theorem search_ok_cases {env : SearchEnv} {s : VState} {now : Nat} {q src : String}
    {r : SearchResult} {s' : VState} {eff : List SEffect}
    (h : search env s now q src = (SearchOut.ok r, s', eff)) :
    loadFromAppleMusic env q = some r ∨ loadFromDeezer env q = some r ∨
    loadFromSpotify env q = some r ∨
    ∃ res, finishLoad env res = SearchOut.ok r := by
  unfold search at h
  rcases hbn : bestNode s now with ⟨b, s1⟩
  rw [hbn] at h
  cases b with
  | err => simp at h
  | hang => simp at h
  | crash => simp at h
  | ok n =>
    cases hx : (loadFromAppleMusic env q).orElse
        (fun _ => (loadFromDeezer env q).orElse (fun _ => loadFromSpotify env q)) with
    | some r0 =>
      simp only [hx] at h
      have hr : r0 = r := by
        have := congrArg Prod.fst h
        simpa using this
      subst hr
      cases ha : loadFromAppleMusic env q with
      | some ra =>
        rw [ha] at hx
        simp [Option.orElse] at hx
        exact Or.inl (congrArg some hx)
      | none =>
        rw [ha] at hx
        simp only [Option.orElse] at hx
        cases hd : loadFromDeezer env q with
        | some rd =>
          rw [hd] at hx
          simp [Option.orElse] at hx
          exact Or.inr (Or.inl (congrArg some hx))
        | none =>
          rw [hd] at hx
          simp only [Option.orElse] at hx
          exact Or.inr (Or.inr (Or.inl hx))
    | none =>
      simp only [hx] at h
      refine Or.inr (Or.inr (Or.inr ?_))
      by_cases hc : s1.cache.length = 0
      · rw [if_pos hc] at h
        exact ⟨env.loadtracks n.id (finalQuery q src), congrArg Prod.fst h⟩
      · rw [if_neg hc] at h
        cases hcl : cacheLast? s1.cache (finalQuery q src) with
        | some v =>
          rw [hcl] at h
          exact ⟨v, congrArg Prod.fst h⟩
        | none =>
          rw [hcl] at h
          exact ⟨env.loadtracks n.id (finalQuery q src), congrArg Prod.fst h⟩

/-- C9: whenever `search` returns a PLAYLIST_LOADED result — via a
catalog collaborator or via the generic load path, cached or fresh — the
returned `playlistInfo.duration` equals the sum of the durations of the
returned member tracks, whatever aggregate the upstream reported. -/
theorem search_playlist_duration_is_sum
    (env : SearchEnv) (s : VState) (now : Nat) (q src : String)
    (r : SearchResult) (s' : VState) (eff : List SEffect)
    (h : search env s now q src = (SearchOut.ok r, s', eff))
    (hl : r.loadType = "PLAYLIST_LOADED") :
    r.playlistInfo.duration = sumDurations r.tracks := by
  rcases search_ok_cases h with ha | hd | hsp | ⟨res, hf⟩
  · exact loadFromAppleMusic_playlist_sum ha hl
  · exact loadFromDeezer_playlist_sum hd hl
  · exact loadFromSpotify_playlist_sum hsp hl
  · exact finishLoad_playlist_sum hf hl

/-- Environment for the C9 witness: no catalog collaborator matches and
the node reports a playlist whose upstream aggregate duration (999) does
not equal the member sum. -/
def c9Env : SearchEnv :=
  { appleEnabled := false, deezerEnabled := false, spotifyEnabled := false,
    matchApple := fun _ => none, matchDeezer := fun _ => none,
    matchSpotify := fun _ => none,
    appleMusicVideo := fun _ _ => { tag := "x", duration := 0 },
    appleTrack := fun _ _ => { tag := "x", duration := 0 },
    appleAlbum := fun _ _ => { title := "x", tracks := [] },
    applePlaylist := fun _ _ => { title := "x", tracks := [] },
    appleArtistTop := fun _ _ => { title := "x", tracks := [] },
    deezerTrack := fun _ => { tag := "x", duration := 0 },
    deezerAlbum := fun _ => { title := "x", tracks := [] },
    deezerPlaylist := fun _ => { title := "x", tracks := [] },
    spotifyTrack := fun _ => { tag := "x", duration := 0 },
    spotifyAlbum := fun _ => { title := "x", tracks := [] },
    spotifyPlaylist := fun _ => { title := "x", tracks := [] },
    spotifyArtistTop := fun _ => { title := "x", tracks := [] },
    loadtracks := fun _ _ =>
      { loadType := "PLAYLIST_LOADED",
        playlistInfo := { name := "P", duration := 999, selectedTrack := 0 },
        tracks := [{ tag := "a" }, { tag := "b" }] },
    mkTrack := fun t => { tag := t.tag, duration := 10 } }

/-- Witness for C9: the generic load path returns the playlist with
duration recomputed to 20 (= 10 + 10), not the upstream-reported 999. -/
theorem search_playlist_duration_is_sum_w :
    ({ loadType := "PLAYLIST_LOADED",
       playlistInfo := { name := "P", duration := 20, selectedTrack := 0 },
       tracks := [{ tag := "a", duration := 10 }, { tag := "b", duration := 10 }] } :
       SearchResult).playlistInfo.duration =
      sumDurations [{ tag := "a", duration := 10 }, { tag := "b", duration := 10 }] :=
  search_playlist_duration_is_sum c9Env c2State 100000 "boom" "youtube"
    { loadType := "PLAYLIST_LOADED",
      playlistInfo := { name := "P", duration := 20, selectedTrack := 0 },
      tracks := [{ tag := "a", duration := 10 }, { tag := "b", duration := 10 }] }
    { clientId := "me",
      nodes := [{ id := "A", state := NodeState.CONNECTED, totalPenalties := 0,
                  region := none }],
      lastNodeSorting := 0, players := [],
      cache := [{ q := "ytsearch:boom",
                  v := { loadType := "PLAYLIST_LOADED",
                         playlistInfo := { name := "P", duration := 999,
                                           selectedTrack := 0 },
                         tracks := [{ tag := "a" }, { tag := "b" }] } }] }
    [SEffect.loadRequest "A" "ytsearch:boom"]
    (by decide) rfl

/-! ### Claim C4 -/

/-- Environment for C4: the apple collaborator recognizes one album URL;
deezer and spotify never match. -/
def c4Env : SearchEnv :=
  { appleEnabled := true, deezerEnabled := true, spotifyEnabled := true,
    matchApple := fun q =>
      if q = "https://music.apple.com/us/album/x/123" then
        some { storefront := "us", kind := "album", contentId := "123", trackId := none }
      else none,
    matchDeezer := fun _ => none,
    matchSpotify := fun _ => none,
    appleMusicVideo := fun _ _ => { tag := "mv", duration := 0 },
    appleTrack := fun _ _ => { tag := "at", duration := 0 },
    appleAlbum := fun _ _ =>
      { title := "Alb", tracks := [{ tag := "t1", duration := 100 },
                                   { tag := "t2", duration := 50 }] },
    applePlaylist := fun _ _ => { title := "P", tracks := [] },
    appleArtistTop := fun _ _ => { title := "AT", tracks := [] },
    deezerTrack := fun _ => { tag := "d", duration := 0 },
    deezerAlbum := fun _ => { title := "D", tracks := [] },
    deezerPlaylist := fun _ => { title := "D", tracks := [] },
    spotifyTrack := fun _ => { tag := "s", duration := 0 },
    spotifyAlbum := fun _ => { title := "S", tracks := [] },
    spotifyPlaylist := fun _ => { title := "S", tracks := [] },
    spotifyArtistTop := fun _ => { title := "S", tracks := [] },
    loadtracks := fun _ _ =>
      { loadType := "NO_MATCHES",
        playlistInfo := { name := "", duration := 0, selectedTrack := 0 },
        tracks := [] },
    mkTrack := fun t => { tag := t.tag, duration := 7 } }

/-- The apple result that `loadFromAppleMusic` produces for the C4 album
URL under `c4Env`. -/
def c4AlbumRes : SearchResult :=
  { loadType := "PLAYLIST_LOADED",
    playlistInfo := { name := "Alb", duration := 150, selectedTrack := 0 },
    tracks := [{ tag := "t1", duration := 100 }, { tag := "t2", duration := 50 }] }

/-- Pool whose only node is DISCONNECTED, with a cache entry for the
apple URL already present. -/
def c4State : VState :=
  { clientId := "me",
    nodes := [{ id := "D", state := NodeState.DISCONNECTED, totalPenalties := 0,
                region := none }],
    lastNodeSorting := 0, players := [],
    cache := [{ q := "https://music.apple.com/us/album/x/123",
                v := { loadType := "NO_MATCHES",
                       playlistInfo := { name := "", duration := 0, selectedTrack := 0 },
                       tracks := [] } }] }

/-- C4: the claim says `bestNode` is selected only when no collaborator
pattern matches and the cache misses.  The source evaluates
`this.bestNode` on the first line of `search`, before any collaborator is
probed: on a pool with no usable node, a query that the apple collaborator
recognizes still makes `search` throw `No connected nodes!` instead of
returning the collaborator's result. -/
theorem search_evaluates_bestNode_first :
    loadFromAppleMusic c4Env "https://music.apple.com/us/album/x/123" = some c4AlbumRes ∧
    (search c4Env c4State 100000 "https://music.apple.com/us/album/x/123" "youtube").1 =
      SearchOut.errNoNodes := by
  decide

/-- C4 (amended): provided `bestNode` succeeds, the three collaborators
are probed in the fixed order Apple Music, Deezer, Spotify; the first
match short-circuits with that collaborator's result, touching neither
the cache (even when it holds an entry for the query) nor the node; and
when no collaborator matches, the generic load request is issued exactly
when the cache lookup for the final query misses.  `bestNode` itself,
however, runs unconditionally at the start of every call. -/
theorem search_priority_and_cache
    (env : SearchEnv) (s : VState) (now : Nat) (q src : String)
    (n : NodeData) (s1 : VState)
    (hbn : bestNode s now = (BNRes.ok n, s1)) :
    (∀ r, loadFromAppleMusic env q = some r →
        search env s now q src = (SearchOut.ok r, s1, [])) ∧
    (loadFromAppleMusic env q = none → ∀ r, loadFromDeezer env q = some r →
        search env s now q src = (SearchOut.ok r, s1, [])) ∧
    (loadFromAppleMusic env q = none → loadFromDeezer env q = none →
      ∀ r, loadFromSpotify env q = some r →
        search env s now q src = (SearchOut.ok r, s1, [])) ∧
    (loadFromAppleMusic env q = none → loadFromDeezer env q = none →
      loadFromSpotify env q = none →
      (∀ v, cacheLast? s1.cache (finalQuery q src) = some v →
          search env s now q src = (finishLoad env v, s1, [])) ∧
      (cacheLast? s1.cache (finalQuery q src) = none →
          search env s now q src =
            (finishLoad env (env.loadtracks n.id (finalQuery q src)),
             { s1 with cache := s1.cache ++
                 [{ q := finalQuery q src, v := env.loadtracks n.id (finalQuery q src) }] },
             [SEffect.loadRequest n.id (finalQuery q src)]))) := by
  refine ⟨?_, ?_, ?_, ?_⟩
  · intro r hr
    simp [search, hbn, hr, Option.orElse]
  · intro ha r hr
    simp [search, hbn, ha, hr, Option.orElse]
  · intro ha hd r hr
    simp [search, hbn, ha, hd, hr, Option.orElse]
  · intro ha hd hsp
    constructor
    · intro v hv
      have hne : ¬ s1.cache.length = 0 := by
        intro h0
        rw [List.length_eq_zero.mp h0] at hv
        simp [cacheLast?] at hv
      simp [search, hbn, ha, hd, hsp, Option.orElse, hne, hv]
    · intro hv
      by_cases hc : s1.cache.length = 0
      · simp [search, hbn, ha, hd, hsp, Option.orElse, hc]
      · simp [search, hbn, ha, hd, hsp, Option.orElse, hc, hv]

/-- Witness for C4 (amended): with a CONNECTED node and a cache entry for
the apple URL, the apple result short-circuits and nothing is requested. -/
theorem search_priority_and_cache_w :
    search c4Env
      { clientId := "me",
        nodes := [{ id := "C", state := NodeState.CONNECTED, totalPenalties := 0,
                    region := none }],
        lastNodeSorting := 0, players := [],
        cache := [{ q := "https://music.apple.com/us/album/x/123",
                    v := { loadType := "NO_MATCHES",
                           playlistInfo := { name := "", duration := 0, selectedTrack := 0 },
                           tracks := [] } }] }
      100000 "https://music.apple.com/us/album/x/123" "youtube" =
      (SearchOut.ok c4AlbumRes,
       { clientId := "me",
         nodes := [{ id := "C", state := NodeState.CONNECTED, totalPenalties := 0,
                     region := none }],
         lastNodeSorting := 0, players := [],
         cache := [{ q := "https://music.apple.com/us/album/x/123",
                     v := { loadType := "NO_MATCHES",
                            playlistInfo := { name := "", duration := 0, selectedTrack := 0 },
                            tracks := [] } }] },
       []) :=
  (search_priority_and_cache c4Env
    { clientId := "me",
      nodes := [{ id := "C", state := NodeState.CONNECTED, totalPenalties := 0,
                  region := none }],
      lastNodeSorting := 0, players := [],
      cache := [{ q := "https://music.apple.com/us/album/x/123",
                  v := { loadType := "NO_MATCHES",
                         playlistInfo := { name := "", duration := 0, selectedTrack := 0 },
                         tracks := [] } }] }
    100000 "https://music.apple.com/us/album/x/123" "youtube"
    { id := "C", state := NodeState.CONNECTED, totalPenalties := 0, region := none }
    { clientId := "me",
      nodes := [{ id := "C", state := NodeState.CONNECTED, totalPenalties := 0,
                  region := none }],
      lastNodeSorting := 0, players := [],
      cache := [{ q := "https://music.apple.com/us/album/x/123",
                  v := { loadType := "NO_MATCHES",
                         playlistInfo := { name := "", duration := 0, selectedTrack := 0 },
                         tracks := [] } }] }
    (by decide)).1 c4AlbumRes (by decide)

end Vulkava
